import Mathlib

/-!
# Shallow embedding of the RDS snapshot-to-S3 Lambda handlers

Two AWS Lambda handlers are embedded here:

* Handler A (source file of unknown name, called part_000 in the staging
  area): reads `SOURCE_ARN`, `S3_BUCKET_NAME`, `IAM_ROLE_ARN` and the
  optional `KMS_KEY_ID` from the process environment at module load,
  builds an export-task identifier from the current UTC timestamp and
  issues a single StartExportTask request.
* Handler B (src/index.ts): reads `DB_CLUSTER_IDENTIFIER`,
  `SNAPSHOT_NAME`, `S3_BUCKET_NAME`, `IAM_ROLE_ARN` and the optional
  `KMS_KEY_ID` inside the handler body, creates a DB cluster snapshot,
  waits for it to become available with a 600 second ceiling, then issues
  an ExportDBClusterSnapshotToS3 request.

Environment variables are `Option String` (a missing variable is
JavaScript `undefined`, modelled as `none`).  The downstream AWS SDK calls
are modelled by an effects record giving each call a result
(`Except JsError`): an invocation is then a pure function from the
environment, the clock and the effects record to the list of downstream
calls issued, in order, together with the returned response envelope.
-/

namespace RdsSnapshotExport

/-- A JSON value, as produced by `JSON.stringify` on the response bodies.
Only the constructors the handlers use are needed. -/
inductive Json where
  | str (s : String)
  | num (n : Nat)
  | obj (fields : List (String × Json))

/-- Field lookup in a JSON object (first match wins, as in a JS object
literal with distinct keys). -/
def lookupField (fs : List (String × Json)) (k : String) : Option Json :=
  match fs with
  | [] => none
  | (k2, v) :: rest => if k2 = k then some v else lookupField rest k

/-- `Json.lookupKey j k` is the value of key `k` when `j` is an object. -/
def Json.lookupKey (j : Json) (k : String) : Option Json :=
  match j with
  | .obj fs => lookupField fs k
  | _ => none

/-- A caught JavaScript `Error` value: the handlers only ever read its
`message` property. -/
structure JsError where
  message : String
deriving DecidableEq

/-- `JSON.stringify` of an `Error` instance.  An `Error` has no own
enumerable properties (`message`, `name` and `stack` are non-enumerable),
so serialising one yields the empty object, dropping the message. -/
def jsonOfCaughtError (_e : JsError) : Json := Json.obj []

/-- The Lambda response envelope.  The real handlers return the body as
the `JSON.stringify` serialisation of the object modelled here; a key
whose value is `undefined` is omitted from that serialisation, which the
body builders below reflect by omitting the key. -/
structure LambdaResult where
  statusCode : Nat
  body : Json

/-! ## Timestamps

Handler A derives its export-task identifier from
`new Date().toISOString().replace(/[-T:.Z]/g, '')`.  A `Date` is modelled
by its UTC calendar components; `toISOString` is the ECMAScript format
`YYYY-MM-DDTHH:mm:ss.sssZ` with each field zero-padded decimal. -/

/-- A JavaScript `Date`, by its UTC components. `month` and `day` are the
one-based values that `toISOString` prints. -/
structure JsDate where
  year : Nat
  month : Nat
  day : Nat
  hour : Nat
  minute : Nat
  second : Nat
  millis : Nat
deriving DecidableEq

/-- The component ranges of a real date (as `toISOString` can print for
dates between the years 0 and 9999). -/
abbrev JsDate.Valid (d : JsDate) : Prop :=
  d.year < 10000 ∧ 1 ≤ d.month ∧ d.month ≤ 12 ∧ 1 ≤ d.day ∧ d.day ≤ 31 ∧
    d.hour < 24 ∧ d.minute < 60 ∧ d.second < 60 ∧ d.millis < 1000

/-- The `w` low-order decimal digits of `n`, as characters; for
`n < 10 ^ w` this is exactly the zero-padded decimal form that
`toISOString` prints for a `w`-wide field. -/
def digitsOfWidth : Nat → Nat → List Char
  | 0, _ => []
  | w + 1, n => digitsOfWidth w (n / 10) ++ [Nat.digitChar (n % 10)]

/-- ECMAScript `Date.prototype.toISOString`: `YYYY-MM-DDTHH:mm:ss.sssZ`. -/
def toISOString (d : JsDate) : String :=
  String.mk (digitsOfWidth 4 d.year ++ ['-'] ++ digitsOfWidth 2 d.month ++ ['-'] ++
    digitsOfWidth 2 d.day ++ ['T'] ++ digitsOfWidth 2 d.hour ++ [':'] ++
    digitsOfWidth 2 d.minute ++ [':'] ++ digitsOfWidth 2 d.second ++ ['.'] ++
    digitsOfWidth 3 d.millis ++ ['Z'])

/-- The characters removed by the regular expression `[-T:.Z]` in
Handler A. -/
def isStrippedChar (c : Char) : Bool :=
  c == '-' || c == 'T' || c == ':' || c == '.' || c == 'Z'

/-- `s.replace(/[-T:.Z]/g, '')`: drop every punctuation character of the
ISO timestamp. -/
def stripTimestampPunct (s : String) : String :=
  String.mk (s.data.filter (fun c => !isStrippedChar c))

/-- The digit characters of the stripped ISO timestamp, in order:
`YYYYMMDDHHmmsssss` (17 characters, milliseconds included). -/
def timestampDigits (d : JsDate) : List Char :=
  digitsOfWidth 4 d.year ++ (digitsOfWidth 2 d.month ++ (digitsOfWidth 2 d.day ++
    (digitsOfWidth 2 d.hour ++ (digitsOfWidth 2 d.minute ++
      (digitsOfWidth 2 d.second ++ digitsOfWidth 3 d.millis)))))

/-! ## The downstream calls -/

/-- `CreateDBClusterSnapshotCommandInput`, with the fields Handler B
sets. -/
structure CreateSnapshotInput where
  DBClusterIdentifier : Option String
  DBClusterSnapshotIdentifier : Option String
deriving DecidableEq

/-- The second argument of `waitUntilDBClusterSnapshotAvailable`. -/
structure WaitInput where
  DBClusterIdentifier : Option String
  DBClusterSnapshotIdentifier : Option String
deriving DecidableEq

/-- `ExportDBClusterSnapshotToS3CommandInput`, with the fields Handler B
sets. -/
structure ExportSnapshotInput where
  ExportTaskIdentifier : String
  SourceDBClusterSnapshotIdentifier : Option String
  S3BucketName : Option String
  IamRoleArn : Option String
  KmsKeyId : Option String
deriving DecidableEq

/-- `StartExportTaskCommandInput`, with the fields Handler A sets.  A
`none` field is `undefined` and absent from the serialised request. -/
structure StartExportTaskInput where
  ExportTaskIdentifier : String
  SourceArn : Option String
  S3BucketName : Option String
  IamRoleArn : Option String
  KmsKeyId : Option String
deriving DecidableEq

/-- The argument of a `DeleteDBClusterSnapshot` request.  Neither handler
ever issues one; the constructor exists so that frame properties (no
rollback of a created snapshot) can be stated. -/
structure DeleteSnapshotInput where
  DBClusterSnapshotIdentifier : Option String
deriving DecidableEq

/-- One downstream request to the RDS control plane, in the order the
handler issued it. -/
inductive RdsCall where
  | createDBClusterSnapshot (input : CreateSnapshotInput)
  | waitUntilDBClusterSnapshotAvailable (maxWaitTime : Nat) (input : WaitInput)
  | exportDBClusterSnapshotToS3 (input : ExportSnapshotInput)
  | startExportTask (input : StartExportTaskInput)
  | deleteDBClusterSnapshot (input : DeleteSnapshotInput)
deriving DecidableEq

/-! ## Handler A -/

/-- The process environment as Handler A reads it. -/
structure EnvA where
  SOURCE_ARN : Option String
  S3_BUCKET_NAME : Option String
  IAM_ROLE_ARN : Option String
  KMS_KEY_ID : Option String
deriving DecidableEq

/-- The module-level constants of Handler A, computed when the module is
loaded: each is `process.env.X || ''`, so a missing variable becomes the
empty string. -/
structure ConfigA where
  SourceArn : String
  S3BucketName : String
  IamRoleArn : String
  KmsKeyId : String
deriving DecidableEq

/-- Module load of Handler A: `const X = process.env.X || ''` four
times. -/
def loadConfigA (env : EnvA) : ConfigA :=
  { SourceArn := env.SOURCE_ARN.getD ""
    S3BucketName := env.S3_BUCKET_NAME.getD ""
    IamRoleArn := env.IAM_ROLE_ARN.getD ""
    KmsKeyId := env.KMS_KEY_ID.getD "" }

/-- Handler A export-task identifier:
`` `snapshot${new Date().toISOString().replace(/[-T:.Z]/g, '')}` ``. -/
def exportTaskIdentifierA (d : JsDate) : String :=
  "snapshot" ++ stripTimestampPunct (toISOString d)

/-- The `StartExportTaskCommandInput` object Handler A builds.  Every
field is a defined string (the module constants are strings, `''` when
the variable was missing), hence `some _` throughout. -/
def startExportInputA (cfg : ConfigA) (d : JsDate) : StartExportTaskInput :=
  { ExportTaskIdentifier := exportTaskIdentifierA d
    SourceArn := some cfg.SourceArn
    S3BucketName := some cfg.S3BucketName
    IamRoleArn := some cfg.IamRoleArn
    KmsKeyId := some cfg.KmsKeyId }

/-- Handler A body: build the identifier and the parameters, send one
`StartExportTaskCommand`, return 200 with the local identifier on
success and 500 with the raw caught value on failure.  The function is
total: every caught error becomes a 500 response, so no exception leaves
the invocation. -/
def handlerA (cfg : ConfigA) (d : JsDate) (sendResult : Except JsError Unit) :
    List RdsCall × LambdaResult :=
  let inp := startExportInputA cfg d
  match sendResult with
  | .ok _ =>
      ([RdsCall.startExportTask inp],
        { statusCode := 200
          body := Json.obj [("message", Json.str "Export task started successfully"),
            ("exportTaskIdentifier", Json.str inp.ExportTaskIdentifier)] })
  | .error e =>
      ([RdsCall.startExportTask inp],
        { statusCode := 500
          body := Json.obj [("message", Json.str "Failed to start export task"),
            ("error", jsonOfCaughtError e)] })

/-- One invocation of Handler A inside a module instance that was loaded
under `loadEnv`.  The handler body reads only the module-level constants;
it performs no environment read of its own, so the environment current at
invocation time, `invokeEnv`, is not consulted. -/
def handlerAInvocation (loadEnv : EnvA) (_invokeEnv : EnvA) (d : JsDate)
    (sendResult : Except JsError Unit) : List RdsCall × LambdaResult :=
  handlerA (loadConfigA loadEnv) d sendResult

/-! ## Handler B -/

/-- The process environment as Handler B reads it (inside the handler
body, with the TypeScript non-null assertion, so a missing variable flows
through as `undefined`). -/
structure EnvB where
  DB_CLUSTER_IDENTIFIER : Option String
  SNAPSHOT_NAME : Option String
  S3_BUCKET_NAME : Option String
  IAM_ROLE_ARN : Option String
  KMS_KEY_ID : Option String
deriving DecidableEq

/-- The acknowledgement of `ExportDBClusterSnapshotToS3Command`: Handler B
reads its `ExportTaskIdentifier` field, which the service may in
principle omit (`undefined`, modelled `none`). -/
structure ExportSnapshotResult where
  ExportTaskIdentifier : Option String
deriving DecidableEq

/-- The results of the three downstream calls of one Handler B
invocation: create snapshot, wait for availability, export to S3.  A wait
that exceeds its `maxWaitTime` ceiling rejects, so a timeout is one of
the `error` cases of `waitResult`. -/
structure RdsEffectsB where
  createResult : Except JsError Unit
  waitResult : Except JsError Unit
  exportResult : Except JsError ExportSnapshotResult

/-- JavaScript template-literal interpolation of a possibly-undefined
string: `undefined` prints as the text `undefined`. -/
def templateStr (o : Option String) : String :=
  match o with
  | some s => s
  | none => "undefined"

/-- Handler B export-task identifier:
`` `${snapshotName}-export-${Date.now()}` `` with `now` the millisecond
epoch. -/
def exportTaskIdentifierB (snapshotName : Option String) (now : Nat) : String :=
  templateStr snapshotName ++ "-export-" ++ Nat.repr now

/-- The `CreateDBClusterSnapshotCommandInput` Handler B builds. -/
def createSnapshotInputB (env : EnvB) : CreateSnapshotInput :=
  { DBClusterIdentifier := env.DB_CLUSTER_IDENTIFIER
    DBClusterSnapshotIdentifier := env.SNAPSHOT_NAME }

/-- The waiter argument Handler B passes (its `maxWaitTime` companion is
600, written at the call site in `handlerB`). -/
def waitInputB (env : EnvB) : WaitInput :=
  { DBClusterIdentifier := env.DB_CLUSTER_IDENTIFIER
    DBClusterSnapshotIdentifier := env.SNAPSHOT_NAME }

/-- The `ExportDBClusterSnapshotToS3CommandInput` Handler B builds.
`KmsKeyId` is the raw optional environment value: `none` (undefined,
absent from the serialised request) when `KMS_KEY_ID` is unset. -/
def exportInputB (env : EnvB) (now : Nat) : ExportSnapshotInput :=
  { ExportTaskIdentifier := exportTaskIdentifierB env.SNAPSHOT_NAME now
    SourceDBClusterSnapshotIdentifier := env.SNAPSHOT_NAME
    S3BucketName := env.S3_BUCKET_NAME
    IamRoleArn := env.IAM_ROLE_ARN
    KmsKeyId := env.KMS_KEY_ID }

/-- The failure body of Handler B: the caught error's `message` string
under the `error` key. -/
def failureBodyB (e : JsError) : Json :=
  Json.obj [("message", Json.str "Failed to create or export DB cluster snapshot."),
    ("error", Json.str e.message)]

/-- The success body of Handler B.  The `exportTaskIdentifier` field is
the identifier echoed by the export acknowledgement; when that field was
`undefined` the key is omitted from the serialised body. -/
def successBodyB (echoed : Option String) : Json :=
  Json.obj (("message", Json.str "Aurora snapshot export to S3 initiated successfully.") ::
    (match echoed with
     | some s => [("exportTaskIdentifier", Json.str s)]
     | none => []))

/-- Handler B body: inside one `try`, create the snapshot, wait for it to
become available with `maxWaitTime` 600 seconds, then export it; the
first rejection jumps to the `catch`, which returns 500 with the error
message, so a step's failure aborts every later step and nothing is ever
rolled back.  `now` is `Date.now()` at the moment the export parameters
are built. -/
def handlerB (env : EnvB) (now : Nat) (fx : RdsEffectsB) :
    List RdsCall × LambdaResult :=
  let cIn := createSnapshotInputB env
  match fx.createResult with
  | .error e =>
      ([RdsCall.createDBClusterSnapshot cIn], ⟨500, failureBodyB e⟩)
  | .ok _ =>
    let wIn := waitInputB env
    match fx.waitResult with
    | .error e =>
        ([RdsCall.createDBClusterSnapshot cIn,
          RdsCall.waitUntilDBClusterSnapshotAvailable 600 wIn],
          ⟨500, failureBodyB e⟩)
    | .ok _ =>
      let eIn := exportInputB env now
      match fx.exportResult with
      | .error e =>
          ([RdsCall.createDBClusterSnapshot cIn,
            RdsCall.waitUntilDBClusterSnapshotAvailable 600 wIn,
            RdsCall.exportDBClusterSnapshotToS3 eIn],
            ⟨500, failureBodyB e⟩)
      | .ok res =>
          ([RdsCall.createDBClusterSnapshot cIn,
            RdsCall.waitUntilDBClusterSnapshotAvailable 600 wIn,
            RdsCall.exportDBClusterSnapshotToS3 eIn],
            ⟨200, successBodyB res.ExportTaskIdentifier⟩)

/-! ## Helper lemmas about the timestamp digits -/

theorem length_digitsOfWidth (w n : Nat) : (digitsOfWidth w n).length = w := by
  induction w generalizing n with
  | zero => rfl
  | succ w ih => simp [digitsOfWidth, ih]

theorem isDigit_of_mem_digitsOfWidth (w n : Nat) :
    ∀ c ∈ digitsOfWidth w n, c.isDigit = true := by
  induction w generalizing n with
  | zero => intro c hc; simp [digitsOfWidth] at hc
  | succ w ih =>
    intro c hc
    have hd : ∀ r, r < 10 → (Nat.digitChar r).isDigit = true := by decide
    have hc2 : c ∈ digitsOfWidth w (n / 10) ∨ c = Nat.digitChar (n % 10) := by
      simpa [digitsOfWidth] using hc
    rcases hc2 with h | h
    · exact ih _ c h
    · subst h
      exact hd _ (Nat.mod_lt _ (by norm_num))

theorem not_stripped_of_mem_digitsOfWidth (w n : Nat) :
    ∀ c ∈ digitsOfWidth w n, isStrippedChar c = false := by
  induction w generalizing n with
  | zero => intro c hc; simp [digitsOfWidth] at hc
  | succ w ih =>
    intro c hc
    have hd : ∀ r, r < 10 → isStrippedChar (Nat.digitChar r) = false := by decide
    have hc2 : c ∈ digitsOfWidth w (n / 10) ∨ c = Nat.digitChar (n % 10) := by
      simpa [digitsOfWidth] using hc
    rcases hc2 with h | h
    · exact ih _ c h
    · subst h
      exact hd _ (Nat.mod_lt _ (by norm_num))

theorem digitsOfWidth_inj (w : Nat) :
    ∀ m n : Nat, m < 10 ^ w → n < 10 ^ w →
      digitsOfWidth w m = digitsOfWidth w n → m = n := by
  induction w with
  | zero =>
    intro m n hm hn _
    simp only [pow_zero, Nat.lt_one_iff] at hm hn
    omega
  | succ w ih =>
    intro m n hm hn h
    simp only [digitsOfWidth] at h
    obtain ⟨hpre, hsuf⟩ :=
      List.append_inj h (by simp [length_digitsOfWidth])
    have hchar : Nat.digitChar (m % 10) = Nat.digitChar (n % 10) := by
      simpa using hsuf
    have hinj : ∀ r, r < 10 → ∀ s, s < 10 → Nat.digitChar r = Nat.digitChar s → r = s := by
      decide
    have hmod : m % 10 = n % 10 :=
      hinj _ (Nat.mod_lt _ (by norm_num)) _ (Nat.mod_lt _ (by norm_num)) hchar
    have hmlt : m / 10 < 10 ^ w := by
      rw [pow_succ] at hm
      omega
    have hnlt : n / 10 < 10 ^ w := by
      rw [pow_succ] at hn
      omega
    have hdiv : m / 10 = n / 10 := ih _ _ hmlt hnlt hpre
    omega

theorem filter_digitsOfWidth (w n : Nat) :
    (digitsOfWidth w n).filter (fun c => !isStrippedChar c) = digitsOfWidth w n := by
  apply List.filter_eq_self.mpr
  intro c hc
  simp [not_stripped_of_mem_digitsOfWidth w n c hc]

@[simp] theorem isStrippedChar_hyphen : isStrippedChar '-' = true := by decide

@[simp] theorem isStrippedChar_t : isStrippedChar 'T' = true := by decide

@[simp] theorem isStrippedChar_colon : isStrippedChar ':' = true := by decide

@[simp] theorem isStrippedChar_dot : isStrippedChar '.' = true := by decide

@[simp] theorem isStrippedChar_z : isStrippedChar 'Z' = true := by decide

set_option maxHeartbeats 1000000 in
/-- Stripping the punctuation of the ISO timestamp leaves exactly the 17
digit characters, in order. -/
theorem strip_toISOString (d : JsDate) :
    stripTimestampPunct (toISOString d) = String.mk (timestampDigits d) := by
  unfold stripTimestampPunct toISOString timestampDigits
  congr 1
  simp only [List.filter_append, filter_digitsOfWidth, List.filter_cons, List.filter_nil,
    isStrippedChar_hyphen, isStrippedChar_t, isStrippedChar_colon, isStrippedChar_dot,
    isStrippedChar_z, Bool.not_true, Bool.false_eq_true, if_false, List.nil_append,
    List.append_nil, List.append_assoc]

theorem length_timestampDigits (d : JsDate) : (timestampDigits d).length = 17 := by
  simp [timestampDigits, length_digitsOfWidth]

theorem timestampDigits_inj (d1 d2 : JsDate) (h1 : d1.Valid) (h2 : d2.Valid)
    (h : timestampDigits d1 = timestampDigits d2) : d1 = d2 := by
  obtain ⟨hy1, hmo1, hmo1b, hd1, hd1b, hh1, hmi1, hs1, hms1⟩ := h1
  obtain ⟨hy2, hmo2, hmo2b, hd2, hd2b, hh2, hmi2, hs2, hms2⟩ := h2
  unfold timestampDigits at h
  obtain ⟨hyear, h⟩ := List.append_inj h (by simp [length_digitsOfWidth])
  obtain ⟨hmonth, h⟩ := List.append_inj h (by simp [length_digitsOfWidth])
  obtain ⟨hday, h⟩ := List.append_inj h (by simp [length_digitsOfWidth])
  obtain ⟨hhour, h⟩ := List.append_inj h (by simp [length_digitsOfWidth])
  obtain ⟨hminute, h⟩ := List.append_inj h (by simp [length_digitsOfWidth])
  obtain ⟨hsecond, hmillis⟩ := List.append_inj h (by simp [length_digitsOfWidth])
  have ey : d1.year = d2.year :=
    digitsOfWidth_inj 4 _ _ (by norm_num; omega) (by norm_num; omega) hyear
  have emo : d1.month = d2.month :=
    digitsOfWidth_inj 2 _ _ (by norm_num; omega) (by norm_num; omega) hmonth
  have eda : d1.day = d2.day :=
    digitsOfWidth_inj 2 _ _ (by norm_num; omega) (by norm_num; omega) hday
  have eh : d1.hour = d2.hour :=
    digitsOfWidth_inj 2 _ _ (by norm_num; omega) (by norm_num; omega) hhour
  have emi : d1.minute = d2.minute :=
    digitsOfWidth_inj 2 _ _ (by norm_num; omega) (by norm_num; omega) hminute
  have es : d1.second = d2.second :=
    digitsOfWidth_inj 2 _ _ (by norm_num; omega) (by norm_num; omega) hsecond
  have ems : d1.millis = d2.millis :=
    digitsOfWidth_inj 3 _ _ (by norm_num; omega) (by norm_num; omega) hmillis
  cases d1; cases d2
  simp_all

theorem isDigit_of_mem_timestampDigits (d : JsDate) :
    ∀ c ∈ timestampDigits d, c.isDigit = true := by
  intro c hc
  unfold timestampDigits at hc
  rcases List.mem_append.mp hc with h | hc
  · exact isDigit_of_mem_digitsOfWidth _ _ c h
  rcases List.mem_append.mp hc with h | hc
  · exact isDigit_of_mem_digitsOfWidth _ _ c h
  rcases List.mem_append.mp hc with h | hc
  · exact isDigit_of_mem_digitsOfWidth _ _ c h
  rcases List.mem_append.mp hc with h | hc
  · exact isDigit_of_mem_digitsOfWidth _ _ c h
  rcases List.mem_append.mp hc with h | hc
  · exact isDigit_of_mem_digitsOfWidth _ _ c h
  rcases List.mem_append.mp hc with h | h <;>
    exact isDigit_of_mem_digitsOfWidth _ _ c h

/-- Handler A generates a nonempty identifier: it starts with the 8
characters of the literal text snapshot. -/
theorem exportTaskIdentifierA_ne_empty (d : JsDate) : exportTaskIdentifierA d ≠ "" := by
  intro h
  have hlen := congrArg String.length h
  simp only [exportTaskIdentifierA, String.length_append] at hlen
  rw [show ("snapshot" : String).length = 8 from rfl,
    show ("" : String).length = 0 from rfl] at hlen
  omega

/-! ## Example inputs for witnesses and counterexamples -/

/-- A concrete invocation date: 2025-01-15T10:11:12.345Z. -/
def dateEx1 : JsDate := ⟨2025, 1, 15, 10, 11, 12, 345⟩

/-- The same date one second later. -/
def dateEx2 : JsDate := ⟨2025, 1, 15, 10, 11, 13, 345⟩

/-- A Handler A environment without the optional `KMS_KEY_ID`. -/
def envANoKms : EnvA :=
  { SOURCE_ARN := some "arn:aws:rds:ap-northeast-1:1234:cluster-snapshot:snap1"
    S3_BUCKET_NAME := some "bucket1"
    IAM_ROLE_ARN := some "arn:role"
    KMS_KEY_ID := none }

/-- The environment a Handler A module instance was loaded under. -/
def envLoadEx : EnvA :=
  { SOURCE_ARN := some "arn:load"
    S3_BUCKET_NAME := some "bucket1"
    IAM_ROLE_ARN := some "arn:role"
    KMS_KEY_ID := none }

/-- A different environment current at invocation time. -/
def envInvokeEx : EnvA :=
  { SOURCE_ARN := some "arn:invoke"
    S3_BUCKET_NAME := some "bucket1"
    IAM_ROLE_ARN := some "arn:role"
    KMS_KEY_ID := none }

/-! ## Claims about Handler A -/

/-- Claim C3, amended: two Handler A invocations whose (valid) timestamps
differ generate different export-task identifiers, and each identifier is
the literal text snapshot followed by exactly 17 digit characters (the
digits-only UTC timestamp, milliseconds included), not 14. -/
theorem claimC3_identifierUniqueForm (d1 d2 : JsDate) (h1 : d1.Valid) (h2 : d2.Valid)
    (hne : d1 ≠ d2) :
    exportTaskIdentifierA d1 ≠ exportTaskIdentifierA d2 ∧
    exportTaskIdentifierA d1 = "snapshot" ++ String.mk (timestampDigits d1) ∧
    (timestampDigits d1).length = 17 ∧
    (∀ c ∈ timestampDigits d1, c.isDigit = true) := by
  refine ⟨?_, ?_, length_timestampDigits d1, isDigit_of_mem_timestampDigits d1⟩
  · intro h
    apply hne
    apply timestampDigits_inj d1 d2 h1 h2
    have hdata := congrArg String.data h
    rw [exportTaskIdentifierA, exportTaskIdentifierA, strip_toISOString,
      strip_toISOString, String.data_append, String.data_append] at hdata
    exact List.append_cancel_left hdata
  · rw [exportTaskIdentifierA, strip_toISOString]

/-- Claim C3 witness: the two dates one second apart generate the two
distinct well-formed identifiers. -/
theorem claimC3_witness :
    exportTaskIdentifierA dateEx1 ≠ exportTaskIdentifierA dateEx2 ∧
    exportTaskIdentifierA dateEx1 = "snapshot" ++ String.mk (timestampDigits dateEx1) ∧
    (timestampDigits dateEx1).length = 17 ∧
    (∀ c ∈ timestampDigits dateEx1, c.isDigit = true) :=
  claimC3_identifierUniqueForm dateEx1 dateEx2 (by decide) (by decide) (by decide)

/-- Claim C3 counterexample to the spec text: at the concrete date
2025-01-15T10:11:12.345Z the identifier carries 17 digits after the
prefix, not 14, because `toISOString` includes milliseconds. -/
theorem claimC3_counterexample :
    exportTaskIdentifierA dateEx1 = "snapshot20250115101112345" ∧
    (stripTimestampPunct (toISOString dateEx1)).length = 17 ∧
    ¬ (stripTimestampPunct (toISOString dateEx1)).length = 14 := by
  exact ⟨by decide, by decide, by decide⟩

/-- Claim C4: every Handler A invocation issues exactly one downstream
call, a StartExportTask request; a successful send returns 200 with the
nonempty generated identifier in the body, and any send failure returns
500 (the handler is a total function of the send result, so no exception
crosses the invocation boundary). -/
theorem claimC4_handlerA_envelope (cfg : ConfigA) (d : JsDate)
    (sendResult : Except JsError Unit) :
    (handlerA cfg d sendResult).1 = [RdsCall.startExportTask (startExportInputA cfg d)] ∧
    (sendResult = Except.ok () →
      (handlerA cfg d sendResult).2.statusCode = 200 ∧
      Json.lookupKey (handlerA cfg d sendResult).2.body "exportTaskIdentifier" =
        some (Json.str (exportTaskIdentifierA d)) ∧
      exportTaskIdentifierA d ≠ "") ∧
    (∀ e : JsError, sendResult = Except.error e →
      (handlerA cfg d sendResult).2.statusCode = 500) := by
  refine ⟨?_, ?_, ?_⟩
  · cases sendResult <;> rfl
  · intro h
    subst h
    exact ⟨rfl, rfl, exportTaskIdentifierA_ne_empty d⟩
  · intro e h
    subst h
    rfl

/-- Claim C5, amended: when `KMS_KEY_ID` is unset, Handler B omits the
`KmsKeyId` field from its export request (it is `undefined`); Handler A,
whose module constant is `process.env.KMS_KEY_ID || ''`, instead sends
the field as the empty string. -/
theorem claimC5_kmsKeyHandling :
    (∀ (env : EnvB) (now : Nat), env.KMS_KEY_ID = none →
      (exportInputB env now).KmsKeyId = none) ∧
    (∀ (env : EnvB) (now : Nat) (fx : RdsEffectsB) (eIn : ExportSnapshotInput),
      RdsCall.exportDBClusterSnapshotToS3 eIn ∈ (handlerB env now fx).1 →
      eIn = exportInputB env now) ∧
    (∀ (env : EnvA) (d : JsDate), env.KMS_KEY_ID = none →
      (startExportInputA (loadConfigA env) d).KmsKeyId = some "") := by
  refine ⟨?_, ?_, ?_⟩
  · intro env now h
    simp [exportInputB, h]
  · intro env now fx eIn hmem
    obtain ⟨cr, wr, er⟩ := fx
    cases cr <;> cases wr <;> cases er <;> simp_all [handlerB]
  · intro env d h
    simp [startExportInputA, loadConfigA, h]

/-- Claim C5 counterexample: with `KMS_KEY_ID` unset, the Handler A
request carries `KmsKeyId` as the empty string rather than leaving it
absent. -/
theorem claimC5_counterexample :
    envANoKms.KMS_KEY_ID = none ∧
    (handlerA (loadConfigA envANoKms) dateEx1 (Except.ok ())).1 =
      [RdsCall.startExportTask (startExportInputA (loadConfigA envANoKms) dateEx1)] ∧
    (startExportInputA (loadConfigA envANoKms) dateEx1).KmsKeyId = some "" ∧
    ¬ (startExportInputA (loadConfigA envANoKms) dateEx1).KmsKeyId = none := by
  exact ⟨rfl, rfl, rfl, by decide⟩

/-- Claim C6, amended: Handler B reads its configuration from the
environment at invocation time, so each invocation uses its own values;
Handler A reads its configuration once at module load, so an invocation
is insensitive to the environment current at invocation time and uses the
load-time values (immutability within an invocation holds for both). -/
theorem claimC6_configCapture :
    (∀ (loadEnv inv1 inv2 : EnvA) (d : JsDate) (r : Except JsError Unit),
      handlerAInvocation loadEnv inv1 d r = handlerAInvocation loadEnv inv2 d r) ∧
    (∀ (loadEnv : EnvA) (d : JsDate),
      (startExportInputA (loadConfigA loadEnv) d).SourceArn =
        some (loadEnv.SOURCE_ARN.getD "") ∧
      (startExportInputA (loadConfigA loadEnv) d).S3BucketName =
        some (loadEnv.S3_BUCKET_NAME.getD "") ∧
      (startExportInputA (loadConfigA loadEnv) d).IamRoleArn =
        some (loadEnv.IAM_ROLE_ARN.getD "") ∧
      (startExportInputA (loadConfigA loadEnv) d).KmsKeyId =
        some (loadEnv.KMS_KEY_ID.getD "")) ∧
    (∀ (env : EnvB) (now : Nat),
      (createSnapshotInputB env).DBClusterIdentifier = env.DB_CLUSTER_IDENTIFIER ∧
      (createSnapshotInputB env).DBClusterSnapshotIdentifier = env.SNAPSHOT_NAME ∧
      (exportInputB env now).SourceDBClusterSnapshotIdentifier = env.SNAPSHOT_NAME ∧
      (exportInputB env now).S3BucketName = env.S3_BUCKET_NAME ∧
      (exportInputB env now).IamRoleArn = env.IAM_ROLE_ARN ∧
      (exportInputB env now).KmsKeyId = env.KMS_KEY_ID) :=
  ⟨fun _ _ _ _ _ => rfl,
   fun _ _ => ⟨rfl, rfl, rfl, rfl⟩,
   fun _ _ => ⟨rfl, rfl, rfl, rfl, rfl, rfl⟩⟩

/-- Claim C6 counterexample: a Handler A invocation running while the
environment holds a different `SOURCE_ARN` still sends the module-load
value, so the invocation does not use its own environment contents. -/
theorem claimC6_counterexample :
    ¬ envLoadEx.SOURCE_ARN = envInvokeEx.SOURCE_ARN ∧
    (handlerAInvocation envLoadEx envInvokeEx dateEx1 (Except.ok ())).1 =
      [RdsCall.startExportTask (startExportInputA (loadConfigA envLoadEx) dateEx1)] ∧
    (startExportInputA (loadConfigA envLoadEx) dateEx1).SourceArn = some "arn:load" ∧
    ¬ (startExportInputA (loadConfigA envLoadEx) dateEx1).SourceArn =
        some (envInvokeEx.SOURCE_ARN.getD "") := by
  exact ⟨by decide, rfl, rfl, by decide⟩

/-- Claim C10: on failure, Handler A puts the raw caught value under the
error key, which serialises an `Error` instance to the empty JSON object
and so loses its message, while Handler B puts the caught error's
`message` string there. -/
theorem claimC10_failureBodies (cfg : ConfigA) (d : JsDate) (e : JsError)
    (env : EnvB) (now : Nat) (wr : Except JsError Unit)
    (er : Except JsError ExportSnapshotResult) :
    Json.lookupKey (handlerA cfg d (Except.error e)).2.body "error" =
      some (jsonOfCaughtError e) ∧
    jsonOfCaughtError e = Json.obj [] ∧
    Json.lookupKey (handlerB env now ⟨Except.error e, wr, er⟩).2.body "error" =
      some (Json.str e.message) ∧
    ¬ Json.obj [] = Json.str e.message := by
  exact ⟨rfl, rfl, rfl, fun h => Json.noConfusion h⟩

/-! ## Claims about Handler B -/

/-- The Handler B environment of the worked example in the spec. -/
def envBEx : EnvB :=
  { DB_CLUSTER_IDENTIFIER := some "mycluster"
    SNAPSHOT_NAME := some "snap1"
    S3_BUCKET_NAME := some "bucket1"
    IAM_ROLE_ARN := some "arn:role"
    KMS_KEY_ID := none }

/-- Effects where the create call is rejected. -/
def fxCreateFail : RdsEffectsB :=
  { createResult := Except.error ⟨"snapshot already exists"⟩
    waitResult := Except.ok ()
    exportResult := Except.ok ⟨none⟩ }

/-- Effects where the wait rejects (for instance on exceeding its
`maxWaitTime` ceiling). -/
def fxWaitFail : RdsEffectsB :=
  { createResult := Except.ok ()
    waitResult := Except.error ⟨"exceeded maxWaitTime"⟩
    exportResult := Except.ok ⟨none⟩ }

/-- Effects where create and wait succeed and the export is rejected. -/
def fxExportFail : RdsEffectsB :=
  { createResult := Except.ok ()
    waitResult := Except.ok ()
    exportResult := Except.error ⟨"export failed"⟩ }

/-- Effects where all three calls succeed and the export acknowledgement
echoes the requested identifier, as the real control plane does. -/
def fxExportEcho : RdsEffectsB :=
  { createResult := Except.ok ()
    waitResult := Except.ok ()
    exportResult := Except.ok ⟨some (exportTaskIdentifierB (some "snap1") 1700000000000)⟩ }

/-- Effects where all three calls succeed but the export acknowledgement
carries an unrelated identifier. -/
def fxExportFoo : RdsEffectsB :=
  { createResult := Except.ok ()
    waitResult := Except.ok ()
    exportResult := Except.ok ⟨some "foo"⟩ }

/-- Effects where all three calls succeed and the export acknowledgement
omits its `ExportTaskIdentifier` field. -/
def fxExportNoId : RdsEffectsB :=
  { createResult := Except.ok ()
    waitResult := Except.ok ()
    exportResult := Except.ok ⟨none⟩ }

/-- Claim C1: in Handler B the create request is always issued first; a
wait call appears in the trace only when the create call was
acknowledged; an export call appears only when both create and wait
succeeded, and then the trace starts with create followed by the wait;
and a failure at any step cuts the trace there and makes the whole
invocation return 500. -/
theorem claimC1_handlerB_ordering :
    (∀ (env : EnvB) (now : Nat) (fx : RdsEffectsB),
      (handlerB env now fx).1.head? =
        some (RdsCall.createDBClusterSnapshot (createSnapshotInputB env))) ∧
    (∀ (env : EnvB) (now : Nat) (fx : RdsEffectsB) (w : Nat) (wIn : WaitInput),
      RdsCall.waitUntilDBClusterSnapshotAvailable w wIn ∈ (handlerB env now fx).1 →
      fx.createResult = Except.ok ()) ∧
    (∀ (env : EnvB) (now : Nat) (fx : RdsEffectsB) (eIn : ExportSnapshotInput),
      RdsCall.exportDBClusterSnapshotToS3 eIn ∈ (handlerB env now fx).1 →
      fx.createResult = Except.ok () ∧ fx.waitResult = Except.ok () ∧
      (handlerB env now fx).1.take 2 =
        [RdsCall.createDBClusterSnapshot (createSnapshotInputB env),
         RdsCall.waitUntilDBClusterSnapshotAvailable 600 (waitInputB env)]) ∧
    (∀ (env : EnvB) (now : Nat) (fx : RdsEffectsB) (e : JsError),
      fx.createResult = Except.error e →
      (handlerB env now fx).1 =
        [RdsCall.createDBClusterSnapshot (createSnapshotInputB env)] ∧
      (handlerB env now fx).2.statusCode = 500) ∧
    (∀ (env : EnvB) (now : Nat) (fx : RdsEffectsB) (e : JsError),
      fx.waitResult = Except.error e →
      (∀ eIn : ExportSnapshotInput,
        RdsCall.exportDBClusterSnapshotToS3 eIn ∉ (handlerB env now fx).1) ∧
      (handlerB env now fx).2.statusCode = 500) ∧
    (∀ (env : EnvB) (now : Nat) (fx : RdsEffectsB) (e : JsError),
      fx.exportResult = Except.error e → (handlerB env now fx).2.statusCode = 500) := by
  refine ⟨?_, ?_, ?_, ?_, ?_, ?_⟩
  · intro env now fx
    obtain ⟨cr, wr, er⟩ := fx
    cases cr <;> cases wr <;> cases er <;> rfl
  · intro env now fx w wIn hmem
    obtain ⟨cr, wr, er⟩ := fx
    cases cr <;> cases wr <;> cases er <;> simp_all [handlerB]
  · intro env now fx eIn hmem
    obtain ⟨cr, wr, er⟩ := fx
    cases cr <;> cases wr <;> cases er <;> simp_all [handlerB]
  · intro env now fx e h
    obtain ⟨cr, wr, er⟩ := fx
    cases cr <;> cases wr <;> cases er <;> simp_all [handlerB]
  · intro env now fx e h
    obtain ⟨cr, wr, er⟩ := fx
    cases cr <;> cases wr <;> cases er <;> simp_all [handlerB]
  · intro env now fx e h
    obtain ⟨cr, wr, er⟩ := fx
    cases cr <;> cases wr <;> cases er <;> simp_all [handlerB]

/-- Claim C2: every wait call Handler B issues carries the 600 second
`maxWaitTime` ceiling, and when the wait rejects (as it does on exceeding
that ceiling) after a successful create, the invocation returns 500 and
no export call is ever issued. -/
theorem claimC2_waitCeiling :
    (∀ (env : EnvB) (now : Nat) (fx : RdsEffectsB) (w : Nat) (wIn : WaitInput),
      RdsCall.waitUntilDBClusterSnapshotAvailable w wIn ∈ (handlerB env now fx).1 →
      w = 600) ∧
    (∀ (env : EnvB) (now : Nat) (fx : RdsEffectsB) (e : JsError),
      fx.createResult = Except.ok () → fx.waitResult = Except.error e →
      (handlerB env now fx).2.statusCode = 500 ∧
      ∀ eIn : ExportSnapshotInput,
        RdsCall.exportDBClusterSnapshotToS3 eIn ∉ (handlerB env now fx).1) := by
  refine ⟨?_, ?_⟩
  · intro env now fx w wIn hmem
    obtain ⟨cr, wr, er⟩ := fx
    cases cr <;> cases wr <;> cases er <;> simp_all [handlerB]
  · intro env now fx e hc hw
    obtain ⟨cr, wr, er⟩ := fx
    cases cr <;> cases wr <;> cases er <;> simp_all [handlerB]

/-- Claim C7: when the export call fails after a successful create and
wait, Handler B returns 500, its trace is exactly the three requests
create, wait, export, and in particular no DeleteDBClusterSnapshot (or
any other rollback) request is ever issued, leaving the created snapshot
in place. -/
theorem claimC7_noRollback (env : EnvB) (now : Nat) (fx : RdsEffectsB) (e : JsError)
    (hc : fx.createResult = Except.ok ()) (hw : fx.waitResult = Except.ok ())
    (he : fx.exportResult = Except.error e) :
    (handlerB env now fx).2.statusCode = 500 ∧
    (handlerB env now fx).1 =
      [RdsCall.createDBClusterSnapshot (createSnapshotInputB env),
       RdsCall.waitUntilDBClusterSnapshotAvailable 600 (waitInputB env),
       RdsCall.exportDBClusterSnapshotToS3 (exportInputB env now)] ∧
    (∀ dIn : DeleteSnapshotInput,
      RdsCall.deleteDBClusterSnapshot dIn ∉ (handlerB env now fx).1) := by
  obtain ⟨cr, wr, er⟩ := fx
  cases cr <;> cases wr <;> cases er <;> simp_all [handlerB]

/-- Claim C7 witness: the export rejection after create and wait
succeeded, at the example environment. -/
theorem claimC7_witness :
    (handlerB envBEx 1700000000000 fxExportFail).2.statusCode = 500 ∧
    (handlerB envBEx 1700000000000 fxExportFail).1 =
      [RdsCall.createDBClusterSnapshot (createSnapshotInputB envBEx),
       RdsCall.waitUntilDBClusterSnapshotAvailable 600 (waitInputB envBEx),
       RdsCall.exportDBClusterSnapshotToS3 (exportInputB envBEx 1700000000000)] ∧
    (∀ dIn : DeleteSnapshotInput,
      RdsCall.deleteDBClusterSnapshot dIn ∉ (handlerB envBEx 1700000000000 fxExportFail).1) :=
  claimC7_noRollback envBEx 1700000000000 fxExportFail ⟨"export failed"⟩ rfl rfl rfl

/-- Claim C8, amended: when all three calls succeed and the export
acknowledgement echoes the requested identifier (as the control plane
does), Handler B returns 200 and the body's exportTaskIdentifier is
the snapshot name followed by -export- and the millisecond epoch. -/
theorem claimC8_successEnvelope (env : EnvB) (now : Nat) (fx : RdsEffectsB)
    (res : ExportSnapshotResult) (hc : fx.createResult = Except.ok ())
    (hw : fx.waitResult = Except.ok ()) (he : fx.exportResult = Except.ok res)
    (hecho : res.ExportTaskIdentifier =
      some (exportTaskIdentifierB env.SNAPSHOT_NAME now)) :
    (handlerB env now fx).2.statusCode = 200 ∧
    Json.lookupKey (handlerB env now fx).2.body "exportTaskIdentifier" =
      some (Json.str (templateStr env.SNAPSHOT_NAME ++ "-export-" ++ Nat.repr now)) := by
  obtain ⟨cr, wr, er⟩ := fx
  cases cr <;> cases wr <;> cases er <;>
    simp_all [handlerB, successBodyB, exportTaskIdentifierB, Json.lookupKey, lookupField]

/-- Claim C8 witness: the spec's worked example, with the acknowledgement
echoing the request. -/
theorem claimC8_witness :
    (handlerB envBEx 1700000000000 fxExportEcho).2.statusCode = 200 ∧
    Json.lookupKey (handlerB envBEx 1700000000000 fxExportEcho).2.body
        "exportTaskIdentifier" =
      some (Json.str (templateStr envBEx.SNAPSHOT_NAME ++ "-export-" ++
        Nat.repr 1700000000000)) :=
  claimC8_successEnvelope envBEx 1700000000000 fxExportEcho
    ⟨some (exportTaskIdentifierB (some "snap1") 1700000000000)⟩ rfl rfl rfl rfl

/-- Claim C8 counterexample to the unconditional claim: a successful
invocation whose export acknowledgement carries the identifier foo
returns 200 with foo in the body, which is not of the form
snap1-export-(number). -/
theorem claimC8_counterexample :
    (handlerB envBEx 1700000000000 fxExportFoo).2.statusCode = 200 ∧
    Json.lookupKey (handlerB envBEx 1700000000000 fxExportFoo).2.body
        "exportTaskIdentifier" = some (Json.str "foo") ∧
    ¬ ∃ n : Nat, "foo" = templateStr envBEx.SNAPSHOT_NAME ++ "-export-" ++ Nat.repr n := by
  refine ⟨rfl, rfl, ?_⟩
  rintro ⟨n, h⟩
  have hlen := congrArg String.length h
  rw [String.length_append, String.length_append] at hlen
  rw [show (templateStr envBEx.SNAPSHOT_NAME).length = 5 from rfl,
    show ("-export-" : String).length = 8 from rfl,
    show ("foo" : String).length = 3 from rfl] at hlen
  omega

/-- Claim C9: on the all-success path the body's exportTaskIdentifier is
exactly the identifier echoed by the export acknowledgement, not the
locally generated string; when the acknowledgement omits the field, the
200 body omits it too. -/
theorem claimC9_echoedIdentifier (env : EnvB) (now : Nat) (fx : RdsEffectsB)
    (res : ExportSnapshotResult) (hc : fx.createResult = Except.ok ())
    (hw : fx.waitResult = Except.ok ()) (he : fx.exportResult = Except.ok res) :
    (handlerB env now fx).2.statusCode = 200 ∧
    Json.lookupKey (handlerB env now fx).2.body "exportTaskIdentifier" =
      Option.map Json.str res.ExportTaskIdentifier ∧
    (res.ExportTaskIdentifier = none →
      Json.lookupKey (handlerB env now fx).2.body "exportTaskIdentifier" = none) := by
  obtain ⟨cr, wr, er⟩ := fx
  obtain ⟨etid⟩ := res
  cases cr <;> cases wr <;> cases er <;> cases etid <;>
    simp_all [handlerB, successBodyB, Json.lookupKey, lookupField]

/-- Claim C9 witness: an all-success invocation whose acknowledgement
omits the identifier yields a 200 body without the key. -/
theorem claimC9_witness :
    (handlerB envBEx 1700000000000 fxExportNoId).2.statusCode = 200 ∧
    Json.lookupKey (handlerB envBEx 1700000000000 fxExportNoId).2.body
        "exportTaskIdentifier" =
      Option.map Json.str (ExportSnapshotResult.mk none).ExportTaskIdentifier ∧
    ((ExportSnapshotResult.mk none).ExportTaskIdentifier = none →
      Json.lookupKey (handlerB envBEx 1700000000000 fxExportNoId).2.body
        "exportTaskIdentifier" = none) :=
  claimC9_echoedIdentifier envBEx 1700000000000 fxExportNoId ⟨none⟩ rfl rfl rfl

end RdsSnapshotExport
